import Mathlib

/-!
# Verification of the Crypto_Analytics analysis engines

Shallow embedding of the pure computational core of the repository:

* `CorrelationAnalyzer` (correlation-analyzer service): confidence scoring,
  correlation mining and the pattern store update, price-impact prediction.
* `MarketTrendPredictor` (market-trend-predictor service): trend
  classification and prediction confidence.
* `RecommendationEngine` (recommendation-engine service): signal collection
  and BUY/SELL/HOLD recommendation generation.

Modelling conventions:

* JavaScript numbers are modelled as exact rationals (`ℚ`); the spec and all
  claims state exact arithmetic identities.
* The Supabase tables behind the services are modelled as in-memory lists;
  the database round trips of the original code are modelled as pure state
  passing.  `.single()` (which yields a row exactly when one row matches)
  is modelled by `findSingle`.
* Timestamps are modelled as integers (hours); free-text fields that no
  claim mentions (`reasoning` strings, number formatting) are omitted.
-/

namespace CorrelationAnalyzer

/-- News event row, as selected by the correlation analyzer. -/
structure NewsEvent where
  id : String
  title : String
  category : String
  sentiment_score : ℚ
  impact_level : String
  published_at : ℤ
deriving Repr, DecidableEq

/-- A correlation pattern row (`correlation_patterns` table). -/
structure CorrelationPattern where
  event_type : String
  event_id : String
  crypto_symbol : String
  price_change_percent : ℚ
  time_lag_hours : ℕ
  confidence_score : ℚ
  occurrence_count : ℕ
  event_timestamp : ℤ
deriving Repr, DecidableEq

/-- `TIME_WINDOWS`: hours to analyze after an event. -/
def TIME_WINDOWS : List ℕ := [1, 4, 12, 24, 48, 72, 168]

/-- The ten symbols scanned by `analyzeEventImpact`. -/
def symbols : List String :=
  ["BTC", "ETH", "BNB", "SOL", "XRP", "ADA", "DOGE", "MATIC", "AVAX", "DOT"]

/-- `calculateConfidence`: base 0.5, +0.2 on direction agreement (a
non-positive value counts as direction −1), +0.1 per magnitude threshold
(5/10/20), +0.2 for high impact, +0.1 for medium, clamped at 0.95. -/
def calculateConfidence (priceChange sentimentScore : ℚ) (impactLevel : String) : ℚ :=
  let confidence : ℚ := 0.5
  let priceDirection : ℤ := if priceChange > 0 then 1 else -1
  let sentimentDirection : ℤ := if sentimentScore > 0 then 1 else -1
  let confidence := if priceDirection = sentimentDirection then confidence + 0.2 else confidence
  let confidence := if |priceChange| > 5 then confidence + 0.1 else confidence
  let confidence := if |priceChange| > 10 then confidence + 0.1 else confidence
  let confidence := if |priceChange| > 20 then confidence + 0.1 else confidence
  let confidence := if impactLevel = "high" then confidence + 0.2 else confidence
  let confidence := if impactLevel = "medium" then confidence + 0.1 else confidence
  min confidence 0.95

/-- The storage key of a pattern: (event_id, crypto_symbol, time_lag_hours). -/
def sameKey (s p : CorrelationPattern) : Bool :=
  s.event_id = p.event_id ∧ s.crypto_symbol = p.crypto_symbol ∧
    s.time_lag_hours = p.time_lag_hours

/-- Model of the `.single()` lookup in `recordCorrelation`: the matching row
when exactly one row matches the key, otherwise `none`. -/
def findSingle (store : List CorrelationPattern) (p : CorrelationPattern) :
    Option CorrelationPattern :=
  match store.filter (fun s => sameKey s p) with
  | [e] => some e
  | _ => none

/-- `recordCorrelation`: update the existing row for the key (increment
`occurrence_count`, recompute `confidence_score` from the *stored* count and
the fresh confidence), or insert the pattern if the key is absent. -/
def recordCorrelation (store : List CorrelationPattern) (p : CorrelationPattern) :
    List CorrelationPattern :=
  match findSingle store p with
  | some e =>
      store.map (fun s =>
        if sameKey s p then
          { s with
            occurrence_count := e.occurrence_count + 1,
            confidence_score :=
              min ((e.occurrence_count : ℚ) * 0.05 + p.confidence_score) 0.95 }
        else s)
  | none => store ++ [p]

/-- Inner loop of `analyzeEventImpact` over the time windows for one symbol,
given the price before the event.  `priceAt` abstracts `getPriceAtTime`. -/
def analyzeWindows (priceAt : String → ℤ → Option ℚ) (event : NewsEvent)
    (symbol : String) (priceBefore : ℚ) (store : List CorrelationPattern) :
    List CorrelationPattern :=
  TIME_WINDOWS.foldl (fun st (hoursAfter : ℕ) =>
    match priceAt symbol (event.published_at + (hoursAfter : ℤ)) with
    | none => st
    | some priceAfter =>
        let priceChangePercent := (priceAfter - priceBefore) / priceBefore * 100
        if |priceChangePercent| > 1 then
          recordCorrelation st
            { event_type := event.category,
              event_id := event.id,
              crypto_symbol := symbol,
              price_change_percent := priceChangePercent,
              time_lag_hours := hoursAfter,
              confidence_score :=
                calculateConfidence priceChangePercent event.sentiment_score
                  event.impact_level,
              occurrence_count := 1,
              event_timestamp := event.published_at }
        else st) store

/-- `analyzeEventImpact`: for each tracked symbol with a price at the event
time, scan every time window and record the correlations whose absolute price
move exceeds the 1% materiality threshold. -/
def analyzeEventImpact (priceAt : String → ℤ → Option ℚ) (event : NewsEvent)
    (store : List CorrelationPattern) : List CorrelationPattern :=
  symbols.foldl (fun st symbol =>
    match priceAt symbol event.published_at with
    | none => st
    | some priceBefore => analyzeWindows priceAt event symbol priceBefore st) store

/-- `getStrongestCorrelations`: patterns of the category with confidence at
least `minConfidence`, ordered by descending confidence, limited to 20. -/
def getStrongestCorrelations (store : List CorrelationPattern)
    (eventCategory : String) (minConfidence : ℚ) : List CorrelationPattern :=
  ((store.filter (fun p =>
      p.event_type = eventCategory ∧ minConfidence ≤ p.confidence_score)).mergeSort
    (fun a b => b.confidence_score ≤ a.confidence_score)).take 20

/-- One step of the accumulation loop in `predictPriceImpact`: ensure the
symbol has an entry (JS object key creation), then add the adjusted
prediction and the confidence onto it.  Entries are (symbol, prediction,
confidence). -/
def applyCorrelation (sentimentScore : ℚ) (preds : List (String × ℚ × ℚ))
    (c : CorrelationPattern) : List (String × ℚ × ℚ) :=
  let preds := if preds.any (fun e => e.1 = c.crypto_symbol) then preds
               else preds ++ [(c.crypto_symbol, 0, 0)]
  let sentimentMultiplier :=
    sentimentScore / (if c.price_change_percent > 0 then (1 : ℚ) else -1)
  let adjustedPrediction := c.price_change_percent * sentimentMultiplier
  preds.map (fun e =>
    if e.1 = c.crypto_symbol then
      (e.1, e.2.1 + adjustedPrediction * c.confidence_score,
        e.2.2 + c.confidence_score)
    else e)

/-- `predictPriceImpact`: aggregate the strongest (≥ 0.6 confidence)
correlations of the category per symbol, then divide each accumulated
confidence by the number of contributing patterns. -/
def predictPriceImpact (store : List CorrelationPattern) (eventCategory : String)
    (sentimentScore : ℚ) (impactLevel : String) : List (String × ℚ × ℚ) :=
  let correlations := getStrongestCorrelations store eventCategory 0.6
  let predictions := correlations.foldl (applyCorrelation sentimentScore) []
  predictions.map (fun e =>
    let count := (correlations.filter (fun c => c.crypto_symbol = e.1)).length
    if count > 0 then (e.1, e.2.1, e.2.2 / count) else e)

end CorrelationAnalyzer

namespace MarketTrendPredictor

/-- The three prediction types of a `TrendPrediction`. -/
inductive PredictionType where
  | positive
  | neutral
  | negative
deriving Repr, DecidableEq

/-- `determinePredictionType`: positive when at least 60% of the assets with
data are bullish and the weighted score exceeds 1; negative when at least 60%
are bearish and the weighted score is below −1; neutral otherwise. -/
def determinePredictionType (bullish bearish neutral : ℕ)
    (avgChange newsSentiment : ℚ) : PredictionType :=
  let totalCryptos := bullish + bearish + neutral
  if totalCryptos = 0 then .neutral
  else
    let bullishPercent := ((bullish : ℚ) / (totalCryptos : ℚ)) * 100
    let bearishPercent := ((bearish : ℚ) / (totalCryptos : ℚ)) * 100
    let weightedScore := avgChange * 0.6 + newsSentiment * 0.4
    if bullishPercent ≥ 60 ∧ weightedScore > 1 then .positive
    else if bearishPercent ≥ 60 ∧ weightedScore < -1 then .negative
    else .neutral

/-- `calculateConfidence` of the trend predictor: 50 with no data, otherwise
consensus share × 0.5 + volatility factor × 20 + news-count factor × 15,
clamped into [50, 95].  `newsSentiment` is part of the `newsData` argument of
the source but unused by the computation. -/
def trendConfidence (bullish bearish neutral : ℕ) (avgChange : ℚ)
    (newsSentiment : ℚ) (newsCount : ℕ) : ℚ :=
  let totalCryptos := bullish + bearish + neutral
  if totalCryptos = 0 then 50
  else
    let dominantCount := max (max bullish bearish) neutral
    let consensusPercent := ((dominantCount : ℚ) / (totalCryptos : ℚ)) * 100
    let priceVolatility := |avgChange|
    let volatilityFactor := min (priceVolatility / 5) 1
    let newsConfidenceFactor := min ((newsCount : ℚ) / 10) 1
    let baseConfidence := consensusPercent * 0.5
    let baseConfidence := baseConfidence + volatilityFactor * 20
    let baseConfidence := baseConfidence + newsConfidenceFactor * 15
    min (max baseConfidence 50) 95

end MarketTrendPredictor

namespace RecommendationEngine

/-- A recent news item of a `RecommendationInput`. -/
structure NewsItem where
  sentiment : ℚ
  category : String
  impactLevel : String
  publishedAt : ℤ
deriving Repr, DecidableEq

/-- One price history entry of a `RecommendationInput`. -/
structure PricePoint where
  price : ℚ
  timestamp : ℤ
deriving Repr, DecidableEq

/-- The input of `generateRecommendation`. -/
structure RecommendationInput where
  cryptoSymbol : String
  recentNews : List NewsItem
  priceHistory : List PricePoint
  marketTrend : ℚ
deriving Repr, DecidableEq

/-- The produced `Recommendation`.  The free-text `reasoning` field (joined
signal descriptions with JS number formatting) is not modelled; no claim
mentions its content. -/
structure Recommendation where
  cryptoSymbol : String
  action : String
  confidencePercent : ℤ
  targetPrice : Option ℚ
  stopLoss : Option ℚ
deriving Repr, DecidableEq

/-- JavaScript `Math.round`: round half away from zero upward (half up). -/
def jsRound (q : ℚ) : ℤ := ⌊q + 1/2⌋

/-- `calculatePriceChange`: percent change from the last (oldest) to the
first (latest) entry; 0 when fewer than 2 entries. -/
def calculatePriceChange (prices : List PricePoint) : ℚ :=
  if prices.length < 2 then 0
  else
    match prices.head?, prices.getLast? with
    | some latest, some previous =>
        (latest.price - previous.price) / previous.price * 100
    | _, _ => 0

/-- The impact weight used by `calculateAverageSentiment`: high 3, medium 2,
otherwise 1. -/
def newsWeight (item : NewsItem) : ℚ :=
  if item.impactLevel = "high" then 3 else if item.impactLevel = "medium" then 2 else 1

/-- `calculateAverageSentiment`: impact-weighted average sentiment;
0 for an empty list. -/
def calculateAverageSentiment (news : List NewsItem) : ℚ :=
  if news.length = 0 then 0
  else
    let weightedSum := (news.map (fun item => item.sentiment * newsWeight item)).sum
    let totalWeight := (news.map newsWeight).sum
    if totalWeight > 0 then weightedSum / totalWeight else 0

/-- One entry of the `signals` array: a weight and a direction (±1). -/
structure Signal where
  weight : ℚ
  direction : ℚ
deriving Repr, DecidableEq

/-- 24-hour price change: over the first 24 history entries. -/
def priceChange24h (input : RecommendationInput) : ℚ :=
  calculatePriceChange (input.priceHistory.take 24)

/-- 7-day price change: over the first 168 history entries. -/
def priceChange7d (input : RecommendationInput) : ℚ :=
  calculatePriceChange (input.priceHistory.take 168)

/-- The high-impact negative news filter of `generateRecommendation`. -/
def highImpactNegativeNews (input : RecommendationInput) : List NewsItem :=
  input.recentNews.filter (fun n => n.impactLevel = "high" ∧ n.sentiment < -0.5)

/-- The `signals` array collected by `generateRecommendation`, in source
order: sentiment, 24h momentum, 7d momentum, market trend, high-impact
negative news. -/
def signals (input : RecommendationInput) : List Signal :=
  let avgSentiment := calculateAverageSentiment input.recentNews
  (if avgSentiment > 0.3 then [⟨0.3, 1⟩]
   else if avgSentiment < -0.3 then [⟨0.3, -1⟩] else [])
  ++ (if priceChange24h input > 10 then [⟨0.2, 1⟩]
      else if priceChange24h input < -10 then [⟨0.25, -1⟩] else [])
  ++ (if priceChange7d input > 20 then [⟨0.15, 1⟩]
      else if priceChange7d input < -20 then [⟨0.2, -1⟩] else [])
  ++ (if input.marketTrend > 2 then [⟨0.15, 1⟩]
      else if input.marketTrend < -2 then [⟨0.15, -1⟩] else [])
  ++ (if (highImpactNegativeNews input).length > 0 then [⟨0.35, -1⟩] else [])

/-- Sum of `direction × weight` over the signals. -/
def totalScore (input : RecommendationInput) : ℚ :=
  ((signals input).map (fun s => s.direction * s.weight)).sum

/-- Sum of the signal weights. -/
def totalWeight (input : RecommendationInput) : ℚ :=
  ((signals input).map (fun s => s.weight)).sum

/-- `normalizedScore`: score over weight, 0 when no signal fired. -/
def normalizedScore (input : RecommendationInput) : ℚ :=
  if totalWeight input > 0 then totalScore input / totalWeight input else 0

/-- `priceHistory[0]?.price || 0`: the latest price, 0 for empty history. -/
def currentPrice (input : RecommendationInput) : ℚ :=
  match input.priceHistory.head? with
  | some p => p.price
  | none => 0

/-- `generateRecommendation`: BUY above 0.25, SELL below −0.25, HOLD in
between, with the corresponding confidence formulas (rounded), target price
only for BUY, stop loss for BUY and SELL. -/
def generateRecommendation (input : RecommendationInput) : Recommendation :=
  let ns := normalizedScore input
  let action : String :=
    if ns > 0.25 then "BUY" else if ns < -0.25 then "SELL" else "HOLD"
  let confidence : ℚ :=
    if ns > 0.25 then min 95 (50 + ns * 100)
    else if ns < -0.25 then min 95 (50 + |ns| * 100)
    else max 50 (75 - |ns| * 100)
  let cp := currentPrice input
  let targetPrice : Option ℚ := if action = "BUY" then some (cp * 1.15) else none
  let stopLoss : Option ℚ :=
    if action = "BUY" then some (cp * 0.92)
    else if action = "SELL" then some (cp * 1.08) else none
  { cryptoSymbol := input.cryptoSymbol,
    action := action,
    confidencePercent := jsRound confidence,
    targetPrice := targetPrice,
    stopLoss := stopLoss }

end RecommendationEngine

/-! ## Spec-side formulas and concrete inputs used by the claims -/

namespace CorrelationAnalyzer

/-- The mathematical sign function on rationals: 1, 0 or −1. -/
def ratSign (q : ℚ) : ℤ := if q > 0 then 1 else if q < 0 then -1 else 0

/-- The update formula as the claim reads it: `min(occurrence_count × 0.05 +
new_confidence, 0.95)` with `occurrence_count` the value **after** the
increment.  Written from the spec's words, to be compared with
`recordCorrelation`. -/
def claimedUpdatedConfidence (newCount : ℕ) (newConfidence : ℚ) : ℚ :=
  min ((newCount : ℚ) * 0.05 + newConfidence) 0.95

/-- The confidence formula as the claim reads it, with the mathematical sign
function (`sign 0 = 0`).  Written from the spec's words, to be compared with
`calculateConfidence`. -/
def claimedConfidenceFormula (pc s : ℚ) (il : String) : ℚ :=
  min 0.95 (0.5 + (if ratSign pc = ratSign s then 0.2 else 0)
    + (if |pc| > 5 then 0.1 else 0) + (if |pc| > 10 then 0.1 else 0)
    + (if |pc| > 20 then 0.1 else 0)
    + (if il = "high" then 0.2 else if il = "medium" then 0.1 else 0))

/-- The direction convention actually used by `calculateConfidence`:
positive values map to 1, zero and negative values to −1. -/
def codeDirection (q : ℚ) : ℤ := if q > 0 then 1 else -1

/-- The confidence formula with the code's direction convention (zero treated
as negative direction); the amended form of the claim's formula. -/
def amendedConfidenceFormula (pc s : ℚ) (il : String) : ℚ :=
  min 0.95 (0.5 + (if codeDirection pc = codeDirection s then 0.2 else 0)
    + (if |pc| > 5 then 0.1 else 0) + (if |pc| > 10 then 0.1 else 0)
    + (if |pc| > 20 then 0.1 else 0)
    + (if il = "high" then 0.2 else if il = "medium" then 0.1 else 0))

/-- The invariant of stored correlation patterns: confidence in [0.5, 0.95]
and a time lag from the fixed window set. -/
def patternOK (p : CorrelationPattern) : Prop :=
  0.5 ≤ p.confidence_score ∧ p.confidence_score ≤ 0.95 ∧
    p.time_lag_hours ∈ TIME_WINDOWS

/-- A stored pattern used as a concrete re-mining example. -/
def storedPat : CorrelationPattern :=
  { event_type := "regulation", event_id := "ev1", crypto_symbol := "BTC",
    price_change_percent := 3, time_lag_hours := 24, confidence_score := 0.6,
    occurrence_count := 1, event_timestamp := 0 }

/-- A freshly mined pattern with the same key as `storedPat` and a fresh
confidence of 0.5. -/
def incomingPat : CorrelationPattern :=
  { event_type := "regulation", event_id := "ev1", crypto_symbol := "BTC",
    price_change_percent := 2, time_lag_hours := 24, confidence_score := 0.5,
    occurrence_count := 1, event_timestamp := 0 }

/-- A pattern whose confidence (0.5) is below the 0.6 qualification
threshold of `predictPriceImpact`. -/
def lowConfPat : CorrelationPattern :=
  { event_type := "regulation", event_id := "ev2", crypto_symbol := "BTC",
    price_change_percent := 4, time_lag_hours := 12, confidence_score := 0.5,
    occurrence_count := 1, event_timestamp := 0 }

/-- A concrete price oracle: BTC costs 100 at time 0 and 110 at time 1; no
other data exists. -/
def wPriceAt : String → ℤ → Option ℚ := fun sym t =>
  if sym = "BTC" then
    (if t = 0 then some 100 else if t = 1 then some 110 else none)
  else none

/-- A concrete high-impact event at time 0. -/
def wEvent : NewsEvent :=
  { id := "e1", title := "t", category := "market", sentiment_score := 0.5,
    impact_level := "high", published_at := 0 }

/-- The pattern mined from `wEvent`/`wPriceAt` at the 1-hour window. -/
def wMinedPat : CorrelationPattern :=
  { event_type := "market", event_id := "e1", crypto_symbol := "BTC",
    price_change_percent := 10, time_lag_hours := 1, confidence_score := 0.95,
    occurrence_count := 1, event_timestamp := 0 }

end CorrelationAnalyzer

namespace RecommendationEngine

/-- Scenario B input: exactly one recent news item (high impact, sentiment
−0.7), a flat two-point price history at 100, neutral market trend. -/
def scenB : RecommendationInput :=
  { cryptoSymbol := "BTC",
    recentNews := [{ sentiment := -0.7, category := "regulation",
                     impactLevel := "high", publishedAt := 0 }],
    priceHistory := [{ price := 100, timestamp := 1 }, { price := 100, timestamp := 0 }],
    marketTrend := 0 }

/-- A fully neutral input: one low-impact mildly positive news item, flat
prices, flat market. -/
def neutralInput : RecommendationInput :=
  { cryptoSymbol := "ETH",
    recentNews := [{ sentiment := 0.1, category := "market",
                     impactLevel := "low", publishedAt := 0 }],
    priceHistory := [{ price := 50, timestamp := 1 }, { price := 50, timestamp := 0 }],
    marketTrend := 0 }

/-- Scenario B with an empty price history: the news signals still force a
SELL, and all price-derived quantities degrade to 0. -/
def emptyHistInput : RecommendationInput :=
  { cryptoSymbol := "BTC",
    recentNews := [{ sentiment := -0.7, category := "regulation",
                     impactLevel := "high", publishedAt := 0 }],
    priceHistory := [],
    marketTrend := 0 }

end RecommendationEngine

/-! ## Helper lemmas -/

/-- A `foldl` preserves every invariant preserved by each step over the
elements of the list. -/
lemma foldlPreserves {α β : Type} (P : α → Prop) (f : α → β → α) (l : List β)
    (hf : ∀ a, ∀ b ∈ l, P a → P (f a b)) : ∀ a, P a → P (l.foldl f a) := by
  induction l with
  | nil => intro a h; exact h
  | cons x xs ih =>
      intro a h
      exact ih (fun a b hb => hf a b (List.mem_cons_of_mem _ hb)) _
        (hf a x (List.mem_cons_self _ _) h)

namespace RecommendationEngine

/-- `Math.round` of a rational in [50, 95] stays in [50, 95]. -/
lemma jsRound_bounds {q : ℚ} (h1 : 50 ≤ q) (h2 : q ≤ 95) :
    50 ≤ jsRound q ∧ jsRound q ≤ 95 := by
  constructor
  · exact Int.le_floor.mpr (by push_cast; linarith)
  · exact Int.floor_le_iff.mpr (by push_cast; linarith)

end RecommendationEngine

/-! ## Claim theorems -/

namespace CorrelationAnalyzer

/-- C1 counterexample: re-mining the key of `storedPat` (stored count 1)
with a fresh confidence of 0.5 stores confidence
min(1 × 0.05 + 0.5, 0.95) = 0.55, not the claimed
min((1+1) × 0.05 + 0.5, 0.95) = 0.6: the code multiplies the
pre-increment count, the claim the post-increment count. -/
theorem recordCorrelation_post_increment_cex :
    (recordCorrelation [storedPat] incomingPat).map
        (fun s => (s.occurrence_count, s.confidence_score)) = [(2, 0.55)] ∧
    claimedUpdatedConfidence (storedPat.occurrence_count + 1)
        incomingPat.confidence_score = 0.6 ∧
    (0.55 : ℚ) ≠ (0.6 : ℚ) := by
  refine ⟨?_, ?_, by norm_num⟩
  · norm_num +decide [recordCorrelation, findSingle, sameKey, storedPat, incomingPat,
      min_def, List.filter]
  · norm_num [claimedUpdatedConfidence, min_def, storedPat, incomingPat]

/-- C1 (amended): when exactly one stored pattern matches the
(event_id, crypto_symbol, time_lag_hours) key, `recordCorrelation` creates
no duplicate (the store keeps its length), increments the stored pattern's
`occurrence_count` by 1 and sets its `confidence_score` to
min(old_occurrence_count × 0.05 + new_confidence, 0.95), where
old_occurrence_count is the value **before** the increment; all other
stored patterns are untouched. -/
theorem recordCorrelation_existing_key (store : List CorrelationPattern)
    (p e : CorrelationPattern)
    (h : store.filter (fun s => sameKey s p) = [e]) :
    (recordCorrelation store p).length = store.length ∧
    (recordCorrelation store p).filter (fun s => sameKey s p) =
      [{ e with occurrence_count := e.occurrence_count + 1,
                confidence_score :=
                  min ((e.occurrence_count : ℚ) * 0.05 + p.confidence_score) 0.95 }] ∧
    (recordCorrelation store p).filter (fun s => !sameKey s p) =
      store.filter (fun s => !sameKey s p) := by
  have hfs : findSingle store p = some e := by
    unfold findSingle; rw [h]
  have hrc : recordCorrelation store p = store.map (fun s =>
      if sameKey s p then
        { s with occurrence_count := e.occurrence_count + 1,
                 confidence_score :=
                   min ((e.occurrence_count : ℚ) * 0.05 + p.confidence_score) 0.95 }
      else s) := by
    unfold recordCorrelation; rw [hfs]
  have hkey : ∀ s : CorrelationPattern, sameKey
      (if sameKey s p then
        { s with occurrence_count := e.occurrence_count + 1,
                 confidence_score :=
                   min ((e.occurrence_count : ℚ) * 0.05 + p.confidence_score) 0.95 }
      else s) p = sameKey s p := by
    intro s
    by_cases hx : sameKey s p = true
    · rw [if_pos hx]; rfl
    · rw [if_neg hx]
  have he : sameKey e p = true := by
    have : e ∈ store.filter (fun s => sameKey s p) := by
      rw [h]; exact List.mem_singleton_self e
    exact (List.mem_filter.mp this).2
  refine ⟨by rw [hrc, List.length_map], ?_, ?_⟩
  · rw [hrc, List.filter_map]
    have hcomp : ((fun s => sameKey s p) ∘ (fun s : CorrelationPattern =>
        if sameKey s p then
          { s with occurrence_count := e.occurrence_count + 1,
                   confidence_score :=
                     min ((e.occurrence_count : ℚ) * 0.05 + p.confidence_score) 0.95 }
        else s)) = fun s => sameKey s p := funext hkey
    rw [hcomp, h, List.map_singleton, if_pos he]
  · rw [hrc, List.filter_map]
    have hcomp : ((fun s => !sameKey s p) ∘ (fun s : CorrelationPattern =>
        if sameKey s p then
          { s with occurrence_count := e.occurrence_count + 1,
                   confidence_score :=
                     min ((e.occurrence_count : ℚ) * 0.05 + p.confidence_score) 0.95 }
        else s)) = fun s => !sameKey s p := by
      funext s; simp only [Function.comp_apply, hkey]
    rw [hcomp]
    have : ∀ s ∈ store.filter (fun s => !sameKey s p),
        (if sameKey s p then
          { s with occurrence_count := e.occurrence_count + 1,
                   confidence_score :=
                     min ((e.occurrence_count : ℚ) * 0.05 + p.confidence_score) 0.95 }
        else s) = id s := by
      intro s hs
      have : ¬ sameKey s p = true := by
        have := (List.mem_filter.mp hs).2
        simpa using this
      rw [if_neg this]; rfl
    rw [List.map_congr_left this, List.map_id]

/-- C1 witness: the amended update law at the concrete one-element store. -/
theorem recordCorrelation_existing_key_witness :
    (recordCorrelation [storedPat] incomingPat).length = [storedPat].length ∧
    (recordCorrelation [storedPat] incomingPat).filter
        (fun s => sameKey s incomingPat) =
      [{ storedPat with occurrence_count := storedPat.occurrence_count + 1,
                        confidence_score :=
                          min ((storedPat.occurrence_count : ℚ) * 0.05 +
                            incomingPat.confidence_score) 0.95 }] ∧
    (recordCorrelation [storedPat] incomingPat).filter
        (fun s => !sameKey s incomingPat) =
      [storedPat].filter (fun s => !sameKey s incomingPat) :=
  recordCorrelation_existing_key [storedPat] incomingPat storedPat
    (by norm_num +decide [sameKey, storedPat, incomingPat, List.filter])

/-- C2 counterexample: with price change −3 and sentiment exactly 0 the code
grants the +0.2 direction bonus (both directions collapse to −1), while the
claim's formula with the mathematical sign (sign 0 = 0) does not: 0.7 ≠ 0.5. -/
theorem calculateConfidence_sign_cex :
    calculateConfidence (-3) 0 "low" = 0.7 ∧
    claimedConfidenceFormula (-3) 0 "low" = 0.5 ∧
    calculateConfidence (-3) 0 "low" ≠ claimedConfidenceFormula (-3) 0 "low" := by
  refine ⟨?_, ?_, ?_⟩ <;>
    norm_num +decide [calculateConfidence, claimedConfidenceFormula, ratSign, min_def]

set_option maxHeartbeats 1000000 in
/-- C2 (amended): the mining confidence equals
min(0.95, 0.5 + 0.2·[direction(pc) = direction(s)] + 0.1·[|pc| > 5]
+ 0.1·[|pc| > 10] + 0.1·[|pc| > 20] + (0.2 if high, 0.1 if medium)), where
direction maps positive values to 1 and zero or negative values to −1; in
particular the claim's Scenario C value
calculateConfidence 8 0.6 "high" = 0.95 holds. -/
theorem calculateConfidence_formula_amended :
    (∀ (pc s : ℚ) (il : String),
      calculateConfidence pc s il = amendedConfidenceFormula pc s il) ∧
    calculateConfidence 8 0.6 "high" = 0.95 := by
  constructor
  · intro pc s il
    simp only [calculateConfidence, amendedConfidenceFormula, codeDirection]
    by_cases hh : il = "high" <;> by_cases hm : il = "medium" <;>
      simp only [hh, hm, if_true, if_false, String.reduceEq] <;>
      split_ifs <;> norm_num [min_def]
  · norm_num +decide [calculateConfidence, min_def]

end CorrelationAnalyzer

namespace RecommendationEngine

/-- C3: every generated recommendation has `confidencePercent` in [50, 95],
a target price exactly when the action is BUY, and a stop loss exactly when
the action is BUY or SELL (HOLD sets neither). -/
theorem generateRecommendation_invariants (input : RecommendationInput) :
    50 ≤ (generateRecommendation input).confidencePercent ∧
    (generateRecommendation input).confidencePercent ≤ 95 ∧
    ((generateRecommendation input).targetPrice.isSome ↔
      (generateRecommendation input).action = "BUY") ∧
    ((generateRecommendation input).stopLoss.isSome ↔
      ((generateRecommendation input).action = "BUY" ∨
        (generateRecommendation input).action = "SELL")) := by
  by_cases h1 : normalizedScore input > 0.25
  · have hb1 : (50 : ℚ) ≤ min 95 (50 + normalizedScore input * 100) :=
      le_min (by norm_num) (by nlinarith)
    have hj := jsRound_bounds hb1 (min_le_left _ _)
    simp [generateRecommendation, h1, hj.1, hj.2]
  · by_cases h2 : normalizedScore input < -0.25
    · have habs : (0.25 : ℚ) < |normalizedScore input| := by
        rw [abs_of_neg (by linarith)]; linarith
      have hb1 : (50 : ℚ) ≤ min 95 (50 + |normalizedScore input| * 100) :=
        le_min (by norm_num) (by nlinarith)
      have hj := jsRound_bounds hb1 (min_le_left _ _)
      simp [generateRecommendation, h1, h2, hj.1, hj.2]
    · have habs : |normalizedScore input| ≤ 0.25 := abs_le.mpr ⟨by linarith, by linarith⟩
      have hb1 : (50 : ℚ) ≤ max 50 (75 - |normalizedScore input| * 100) := le_max_left _ _
      have hb2 : max 50 (75 - |normalizedScore input| * 100) ≤ 95 :=
        max_le (by norm_num) (by nlinarith [abs_nonneg (normalizedScore input)])
      have hj := jsRound_bounds hb1 hb2
      simp [generateRecommendation, h1, h2, hj.1, hj.2]

end RecommendationEngine

namespace MarketTrendPredictor

/-- C5: the market is classified positive iff there is data, at least 3/5 of
the assets with data are bullish and the weighted score
avg_change × 0.6 + news_sentiment × 0.4 exceeds 1; negative iff at least 3/5
are bearish and the weighted score is below −1; with no data it is neutral
(and by the two iffs, neutral in every remaining case). -/
theorem determinePredictionType_spec (b be n : ℕ) (avg news : ℚ) :
    (determinePredictionType b be n avg news = .positive ↔
      (b + be + n ≠ 0 ∧ (3/5 : ℚ) ≤ (b : ℚ) / ((b + be + n : ℕ) : ℚ) ∧
        1 < avg * 0.6 + news * 0.4)) ∧
    (determinePredictionType b be n avg news = .negative ↔
      (b + be + n ≠ 0 ∧ (3/5 : ℚ) ≤ (be : ℚ) / ((b + be + n : ℕ) : ℚ) ∧
        avg * 0.6 + news * 0.4 < -1)) ∧
    (b + be + n = 0 → determinePredictionType b be n avg news = .neutral) := by
  by_cases h0 : b + be + n = 0
  · simp [determinePredictionType, h0]
  · have hb : ((b : ℚ) / ((b + be + n : ℕ) : ℚ)) * 100 ≥ 60 ↔
        (3/5 : ℚ) ≤ (b : ℚ) / ((b + be + n : ℕ) : ℚ) := by
      constructor <;> intro <;> linarith
    have hbe : ((be : ℚ) / ((b + be + n : ℕ) : ℚ)) * 100 ≥ 60 ↔
        (3/5 : ℚ) ≤ (be : ℚ) / ((b + be + n : ℕ) : ℚ) := by
      constructor <;> intro <;> linarith
    simp only [determinePredictionType, if_neg h0]
    split_ifs with h1 h2
    · refine ⟨iff_of_true rfl ⟨h0, hb.mp h1.1, h1.2⟩, iff_of_false (by simp) ?_,
        fun h => absurd h h0⟩
      rintro ⟨-, -, hw⟩; linarith [h1.2]
    · refine ⟨iff_of_false (by simp) ?_, iff_of_true rfl ⟨h0, hbe.mp h2.1, h2.2⟩,
        fun h => absurd h h0⟩
      rintro ⟨-, -, hw⟩; linarith [h2.2]
    · refine ⟨iff_of_false (by simp) ?_, iff_of_false (by simp) ?_, fun h => absurd h h0⟩
      · rintro ⟨-, hfrac, hw⟩; exact h1 ⟨hb.mpr hfrac, hw⟩
      · rintro ⟨-, hfrac, hw⟩; exact h2 ⟨hbe.mpr hfrac, hw⟩

/-- C9: the trend prediction confidence never exceeds 85 (consensus at most
50, volatility at most 20, news at most 15), so the upper clamp at 95 never
binds; with no asset data the confidence is exactly 50. -/
theorem trendConfidence_le_85 (b be n : ℕ) (avg sent : ℚ) (cnt : ℕ) :
    trendConfidence b be n avg sent cnt ≤ 85 ∧
    (b + be + n = 0 → trendConfidence b be n avg sent cnt = 50) := by
  by_cases h0 : b + be + n = 0
  · have h50 : trendConfidence b be n avg sent cnt = 50 := by simp [trendConfidence, h0]
    exact ⟨by rw [h50]; norm_num, fun _ => h50⟩
  · refine ⟨?_, fun h => absurd h h0⟩
    simp only [trendConfidence, if_neg h0]
    have htpos : (0 : ℚ) < ((b + be + n : ℕ) : ℚ) := by
      exact_mod_cast Nat.pos_of_ne_zero h0
    have hdom : (max (max b be) n : ℕ) ≤ b + be + n := by omega
    have hcons : ((max (max b be) n : ℕ) : ℚ) / ((b + be + n : ℕ) : ℚ) ≤ 1 := by
      rw [div_le_one htpos]; exact_mod_cast hdom
    have hvol : min (|avg| / 5) 1 ≤ (1 : ℚ) := min_le_right _ _
    have hnews : min ((cnt : ℚ) / 10) 1 ≤ (1 : ℚ) := min_le_right _ _
    calc min (max (((max (max b be) n : ℕ) : ℚ) / ((b + be + n : ℕ) : ℚ) * 100 * 0.5
            + min (|avg| / 5) 1 * 20 + min ((cnt : ℚ) / 10) 1 * 15) 50) 95
        ≤ max (((max (max b be) n : ℕ) : ℚ) / ((b + be + n : ℕ) : ℚ) * 100 * 0.5
            + min (|avg| / 5) 1 * 20 + min ((cnt : ℚ) / 10) 1 * 15) 50 := min_le_left _ _
      _ ≤ 85 := max_le (by nlinarith) (by norm_num)

end MarketTrendPredictor

namespace CorrelationAnalyzer

set_option maxHeartbeats 1600000 in
/-- The confidence produced by `calculateConfidence` always lies in
[0.5, 0.95]. -/
lemma calculateConfidence_bounds (pc s : ℚ) (il : String) :
    0.5 ≤ calculateConfidence pc s il ∧ calculateConfidence pc s il ≤ 0.95 := by
  refine ⟨?_, ?_⟩
  · simp only [calculateConfidence]
    refine le_min ?_ (by norm_num)
    split_ifs <;> norm_num
  · simp only [calculateConfidence]
    exact min_le_right _ _

/-- `recordCorrelation` preserves the pattern-store invariant when the
incoming pattern satisfies it. -/
lemma recordCorrelation_OK (store : List CorrelationPattern) (p : CorrelationPattern)
    (hst : ∀ q ∈ store, patternOK q) (hp : patternOK p) :
    ∀ q ∈ recordCorrelation store p, patternOK q := by
  intro q hq
  cases hfs : findSingle store p with
  | none =>
      have hrc : recordCorrelation store p = store ++ [p] := by
        unfold recordCorrelation; rw [hfs]
      rw [hrc] at hq
      rcases List.mem_append.mp hq with h | h
      · exact hst q h
      · rw [List.mem_singleton.mp h]; exact hp
  | some e =>
      have hrc : recordCorrelation store p = store.map (fun s =>
          if sameKey s p then
            { s with occurrence_count := e.occurrence_count + 1,
                     confidence_score :=
                       min ((e.occurrence_count : ℚ) * 0.05 + p.confidence_score) 0.95 }
          else s) := by
        unfold recordCorrelation; rw [hfs]
      rw [hrc] at hq
      rcases List.mem_map.mp hq with ⟨s, hs, rfl⟩
      by_cases hk : sameKey s p = true
      · rw [if_pos hk]
        refine ⟨?_, ?_, (hst s hs).2.2⟩
        · apply le_min
          · have hnn : (0 : ℚ) ≤ (e.occurrence_count : ℚ) * 0.05 := by positivity
            have := hp.1
            linarith
          · norm_num
        · exact min_le_right _ _
      · rw [if_neg hk]; exact hst s hs

/-- The per-symbol window scan preserves the pattern-store invariant: every
recorded pattern carries a `calculateConfidence` score and a lag from
`TIME_WINDOWS`. -/
lemma analyzeWindows_OK (priceAt : String → ℤ → Option ℚ) (event : NewsEvent)
    (symbol : String) (priceBefore : ℚ) (store : List CorrelationPattern)
    (hst : ∀ q ∈ store, patternOK q) :
    ∀ q ∈ analyzeWindows priceAt event symbol priceBefore store, patternOK q := by
  unfold analyzeWindows
  apply foldlPreserves (P := fun st => ∀ q ∈ st, patternOK q) _ _
    (fun st hoursAfter hmem hP => ?_) store hst
  cases hpa : priceAt symbol (event.published_at + (hoursAfter : ℤ)) with
  | none => simpa [hpa] using hP
  | some priceAfter =>
      simp only [hpa]
      split_ifs with hmat
      · refine recordCorrelation_OK st _ hP ?_
        exact ⟨(calculateConfidence_bounds _ _ _).1,
          (calculateConfidence_bounds _ _ _).2, hmem⟩
      · exact hP

/-- C4: starting from any store satisfying the invariant, every pattern in
the store after `analyzeEventImpact` — freshly inserted or updated on
re-discovery — has `confidence_score` in [0.5, 0.95] and `time_lag_hours`
in the fixed window set {1, 4, 12, 24, 48, 72, 168}. -/
theorem analyzeEventImpact_patternOK (priceAt : String → ℤ → Option ℚ)
    (event : NewsEvent) (store : List CorrelationPattern)
    (hst : ∀ q ∈ store, patternOK q) :
    ∀ q ∈ analyzeEventImpact priceAt event store, patternOK q := by
  unfold analyzeEventImpact
  apply foldlPreserves (P := fun st => ∀ q ∈ st, patternOK q) _ _
    (fun st symbol hmem hP => ?_) store hst
  cases hpa : priceAt symbol event.published_at with
  | none => simpa [hpa] using hP
  | some priceBefore =>
      simp only [hpa]
      exact analyzeWindows_OK priceAt event symbol priceBefore st hP

/-- C4 witness: the concrete mining run over `wPriceAt`/`wEvent` produces
`wMinedPat`, and the invariant theorem applies to it. -/
theorem analyzeEventImpact_patternOK_witness :
    patternOK wMinedPat ∧ wMinedPat ∈ analyzeEventImpact wPriceAt wEvent [] := by
  have hmem : wMinedPat ∈ analyzeEventImpact wPriceAt wEvent [] := by
    norm_num +decide [analyzeEventImpact, analyzeWindows, wPriceAt, wEvent, wMinedPat,
      symbols, TIME_WINDOWS, recordCorrelation, findSingle, sameKey,
      calculateConfidence, min_def, List.filter]
  exact ⟨analyzeEventImpact_patternOK wPriceAt wEvent [] (by simp) wMinedPat hmem, hmem⟩

end CorrelationAnalyzer

namespace RecommendationEngine

/-- C6 counterexample: at the concrete Scenario B input (one high-impact
news item with sentiment −0.7, flat prices, neutral market) TWO signals
fire — the weight-0.3 news-sentiment signal (the weighted average sentiment
is −0.7 < −0.3) and the weight-0.35 high-impact signal — not only the
weight-0.35 one. -/
theorem scenarioB_single_signal_cex :
    signals scenB = [⟨0.3, -1⟩, ⟨0.35, -1⟩] ∧ (signals scenB).length ≠ 1 := by
  have hsig : signals scenB = [⟨0.3, -1⟩, ⟨0.35, -1⟩] := by
    norm_num [signals, scenB, calculateAverageSentiment, newsWeight,
      highImpactNegativeNews, priceChange24h, priceChange7d, calculatePriceChange,
      List.filter]
  exact ⟨hsig, by rw [hsig]; decide⟩

/-- C6 (amended): with exactly one recent news item of impact high and
sentiment −0.7, and no momentum or market-trend condition triggered, both
the weight-0.3 sentiment signal and the weight-0.35 high-impact-negative
signal fire (both direction −1); the normalized score is still −1 and the
engine returns SELL with confidence 95 (clamped), stop loss = current
price × 1.08 and no target price. -/
theorem scenarioB_behavior (input : RecommendationInput) (n : NewsItem)
    (hn : input.recentNews = [n]) (hs : n.sentiment = -0.7) (hi : n.impactLevel = "high")
    (h24a : ¬ priceChange24h input > 10) (h24b : ¬ priceChange24h input < -10)
    (h7a : ¬ priceChange7d input > 20) (h7b : ¬ priceChange7d input < -20)
    (hma : ¬ input.marketTrend > 2) (hmb : ¬ input.marketTrend < -2) :
    signals input = [⟨0.3, -1⟩, ⟨0.35, -1⟩] ∧
    normalizedScore input = -1 ∧
    (generateRecommendation input).action = "SELL" ∧
    (generateRecommendation input).confidencePercent = 95 ∧
    (generateRecommendation input).stopLoss = some (currentPrice input * 1.08) ∧
    (generateRecommendation input).targetPrice = none := by
  have havg : calculateAverageSentiment input.recentNews = -0.7 := by
    rw [hn]
    norm_num [calculateAverageSentiment, newsWeight, hi, hs]
  have hfilter : highImpactNegativeNews input = [n] := by
    unfold highImpactNegativeNews
    rw [hn]
    norm_num [List.filter, hi, hs]
  have hsig : signals input = [⟨0.3, -1⟩, ⟨0.35, -1⟩] := by
    norm_num [signals, havg, hfilter, h24a, h24b, h7a, h7b, hma, hmb]
  have hns : normalizedScore input = -1 := by
    norm_num [normalizedScore, totalScore, totalWeight, hsig]
  refine ⟨hsig, hns, ?_, ?_, ?_, ?_⟩ <;>
    norm_num [generateRecommendation, hns, jsRound] <;>
    exact fun h => absurd h (by decide)

/-- C6 witness: the amended behaviour at the concrete Scenario B input. -/
theorem scenarioB_behavior_witness :
    (generateRecommendation scenB).action = "SELL" ∧
    (generateRecommendation scenB).confidencePercent = 95 ∧
    (generateRecommendation scenB).stopLoss = some (currentPrice scenB * 1.08) ∧
    (generateRecommendation scenB).targetPrice = none := by
  have hpc24 : priceChange24h scenB = 0 := by
    norm_num [priceChange24h, calculatePriceChange, scenB]
  have hpc7 : priceChange7d scenB = 0 := by
    norm_num [priceChange7d, calculatePriceChange, scenB]
  have h := scenarioB_behavior scenB
    { sentiment := -0.7, category := "regulation", impactLevel := "high", publishedAt := 0 }
    rfl rfl rfl
    (by rw [hpc24]; norm_num) (by rw [hpc24]; norm_num)
    (by rw [hpc7]; norm_num) (by rw [hpc7]; norm_num)
    (by norm_num [scenB]) (by norm_num [scenB])
  exact ⟨h.2.2.1, h.2.2.2.1, h.2.2.2.2.1, h.2.2.2.2.2⟩

/-- C7: when no signal condition triggers (weighted average sentiment in
[−0.3, 0.3], 24h change in [−10, 10], 7d change in [−20, 20], market trend
in [−2, 2], no high-impact news item with sentiment below −0.5), the signal
list is empty and the engine returns HOLD with confidence exactly 75. -/
theorem no_signal_hold (input : RecommendationInput)
    (hs1 : -0.3 ≤ calculateAverageSentiment input.recentNews)
    (hs2 : calculateAverageSentiment input.recentNews ≤ 0.3)
    (h24a : -10 ≤ priceChange24h input) (h24b : priceChange24h input ≤ 10)
    (h7a : -20 ≤ priceChange7d input) (h7b : priceChange7d input ≤ 20)
    (hma : -2 ≤ input.marketTrend) (hmb : input.marketTrend ≤ 2)
    (hh : ∀ nw ∈ input.recentNews, ¬(nw.impactLevel = "high" ∧ nw.sentiment < -0.5)) :
    signals input = [] ∧
    (generateRecommendation input).action = "HOLD" ∧
    (generateRecommendation input).confidencePercent = 75 := by
  have hfilter : highImpactNegativeNews input = [] := by
    unfold highImpactNegativeNews
    rw [List.filter_eq_nil_iff]
    intro a ha
    simpa using hh a ha
  have hsig : signals input = [] := by
    rw [signals, hfilter]
    rw [if_neg (by linarith), if_neg (by linarith), if_neg (by linarith),
      if_neg (by linarith), if_neg (by linarith), if_neg (by linarith),
      if_neg (by linarith), if_neg (by linarith), if_neg (by norm_num)]
    simp
  have hns : normalizedScore input = 0 := by
    norm_num [normalizedScore, totalScore, totalWeight, hsig]
  refine ⟨hsig, ?_, ?_⟩ <;>
    norm_num [generateRecommendation, hns, jsRound]

/-- C7 witness: the fully neutral concrete input yields HOLD at 75. -/
theorem no_signal_hold_witness :
    signals neutralInput = [] ∧
    (generateRecommendation neutralInput).action = "HOLD" ∧
    (generateRecommendation neutralInput).confidencePercent = 75 := by
  have havg : calculateAverageSentiment neutralInput.recentNews = 0.1 := by
    norm_num +decide [calculateAverageSentiment, newsWeight, neutralInput]
  have hpc24 : priceChange24h neutralInput = 0 := by
    norm_num [priceChange24h, calculatePriceChange, neutralInput]
  have hpc7 : priceChange7d neutralInput = 0 := by
    norm_num [priceChange7d, calculatePriceChange, neutralInput]
  exact no_signal_hold neutralInput
    (by rw [havg]; norm_num) (by rw [havg]; norm_num)
    (by rw [hpc24]; norm_num) (by rw [hpc24]; norm_num)
    (by rw [hpc7]; norm_num) (by rw [hpc7]; norm_num)
    (by norm_num [neutralInput]) (by norm_num [neutralInput])
    (by intro nw hnw; simp [neutralInput] at hnw; simp [hnw])

/-- C10: with fewer than 2 price history entries both momentum changes are
computed as 0 (so neither momentum signal can fire), and with an empty
history the current price degrades to 0, so any produced target price or
stop loss is either absent or exactly 0 — never an error. -/
theorem degenerate_history_safe (input : RecommendationInput)
    (h : input.priceHistory.length < 2) :
    priceChange24h input = 0 ∧ priceChange7d input = 0 ∧
    (input.priceHistory = [] →
      ((generateRecommendation input).targetPrice = none ∨
        (generateRecommendation input).targetPrice = some 0) ∧
      ((generateRecommendation input).stopLoss = none ∨
        (generateRecommendation input).stopLoss = some 0)) := by
  have hlen : ∀ k : ℕ, (input.priceHistory.take k).length < 2 := by
    intro k; rw [List.length_take]; omega
  have h24 : priceChange24h input = 0 := by
    rw [priceChange24h, calculatePriceChange, if_pos (hlen 24)]
  have h7 : priceChange7d input = 0 := by
    rw [priceChange7d, calculatePriceChange, if_pos (hlen 168)]
  refine ⟨h24, h7, fun hnil => ?_⟩
  have hcp : currentPrice input = 0 := by rw [currentPrice, hnil]; rfl
  by_cases h1 : normalizedScore input > 0.25
  · exact ⟨Or.inr (by simp [generateRecommendation, h1, hcp]),
      Or.inr (by simp [generateRecommendation, h1, hcp])⟩
  · by_cases h2 : normalizedScore input < -0.25
    · exact ⟨Or.inl (by simp [generateRecommendation, h1, h2, hcp]),
        Or.inr (by simp [generateRecommendation, h1, h2, hcp])⟩
    · exact ⟨Or.inl (by simp [generateRecommendation, h1, h2]),
        Or.inl (by simp [generateRecommendation, h1, h2])⟩

/-- C10 witness: the Scenario-B news on an empty price history produces a
SELL whose stop loss is exactly 0, with no error. -/
theorem degenerate_history_safe_witness :
    priceChange24h emptyHistInput = 0 ∧ priceChange7d emptyHistInput = 0 ∧
    (((generateRecommendation emptyHistInput).targetPrice = none ∨
      (generateRecommendation emptyHistInput).targetPrice = some 0) ∧
     ((generateRecommendation emptyHistInput).stopLoss = none ∨
      (generateRecommendation emptyHistInput).stopLoss = some 0)) := by
  have h := degenerate_history_safe emptyHistInput (by norm_num [emptyHistInput])
  exact ⟨h.1, h.2.1, h.2.2 rfl⟩

end RecommendationEngine

namespace CorrelationAnalyzer

/-- Mapping a key-preserving function over an association list does not
change which keys occur. -/
lemma mem_map_fst_iff {α : Type} (l : List (String × α)) (f : String × α → String × α)
    (hf : ∀ e, (f e).1 = e.1) (sym : String) :
    (∃ e ∈ l.map f, e.1 = sym) ↔ (∃ e ∈ l, e.1 = sym) := by
  simp only [List.mem_map]
  constructor
  · rintro ⟨e, ⟨a, ha, rfl⟩, hsym⟩
    exact ⟨a, ha, by rw [← hf a]; exact hsym⟩
  · rintro ⟨a, ha, hsym⟩
    exact ⟨f a, ⟨a, ha, rfl⟩, by rw [hf a]; exact hsym⟩

/-- One accumulation step adds exactly the correlation's symbol to the keys
of the prediction map. -/
lemma applyCorrelation_key (s : ℚ) (preds : List (String × ℚ × ℚ))
    (c : CorrelationPattern) (sym : String) :
    (∃ e ∈ applyCorrelation s preds c, e.1 = sym) ↔
      ((∃ e ∈ preds, e.1 = sym) ∨ c.crypto_symbol = sym) := by
  simp only [applyCorrelation]
  rw [mem_map_fst_iff _ _ (fun e => by by_cases hx : e.1 = c.crypto_symbol <;> simp [hx])]
  by_cases hany : preds.any (fun e => e.1 = c.crypto_symbol)
  · rw [if_pos hany]
    constructor
    · exact Or.inl
    · rintro (h | h)
      · exact h
      · rcases List.any_eq_true.mp hany with ⟨e, he, hsym⟩
        simp only [decide_eq_true_eq] at hsym
        exact ⟨e, he, by rw [hsym]; exact h⟩
  · rw [if_neg hany]
    simp [List.mem_append, or_and_right, exists_or]

/-- The keys of the accumulated prediction map are exactly the starting keys
plus the symbols of the processed correlations. -/
lemma foldl_applyCorrelation_key (s : ℚ) (l : List CorrelationPattern) (sym : String) :
    ∀ preds, (∃ e ∈ l.foldl (applyCorrelation s) preds, e.1 = sym) ↔
      ((∃ e ∈ preds, e.1 = sym) ∨ ∃ c ∈ l, c.crypto_symbol = sym) := by
  induction l with
  | nil => intro preds; simp
  | cons c cs ih =>
      intro preds
      rw [List.foldl_cons, ih (applyCorrelation s preds c), applyCorrelation_key]
      constructor
      · rintro ((h | h) | h)
        · exact Or.inl h
        · exact Or.inr ⟨c, List.mem_cons_self _ _, h⟩
        · rcases h with ⟨d, hd, hsym⟩
          exact Or.inr ⟨d, List.mem_cons_of_mem _ hd, hsym⟩
      · rintro (h | ⟨d, hd, hsym⟩)
        · exact Or.inl (Or.inl h)
        · rcases List.mem_cons.mp hd with rfl | hd'
          · exact Or.inl (Or.inr hsym)
          · exact Or.inr ⟨d, hd', hsym⟩

/-- C8: when no stored pattern of the category qualifies (confidence ≥ 0.6),
`predictPriceImpact` returns the empty mapping rather than an error; and in
general a symbol occurs in the returned mapping exactly when some
qualifying selected correlation for that symbol contributed to it (absent
assets are not zero-filled). -/
theorem predictPriceImpact_spec (store : List CorrelationPattern)
    (cat : String) (s : ℚ) (il : String) :
    ((∀ c ∈ store, ¬(c.event_type = cat ∧ (0.6 : ℚ) ≤ c.confidence_score)) →
      predictPriceImpact store cat s il = []) ∧
    (∀ sym : String,
      (∃ e ∈ predictPriceImpact store cat s il, e.1 = sym) ↔
      (∃ c ∈ getStrongestCorrelations store cat 0.6, c.crypto_symbol = sym)) := by
  constructor
  · intro hnone
    have hfilter : store.filter (fun p =>
        p.event_type = cat ∧ (0.6 : ℚ) ≤ p.confidence_score) = [] := by
      rw [List.filter_eq_nil_iff]
      intro a ha
      simpa using hnone a ha
    have hgs : getStrongestCorrelations store cat 0.6 = [] := by
      unfold getStrongestCorrelations
      rw [hfilter, List.mergeSort_nil]
      rfl
    simp [predictPriceImpact, hgs]
  · intro sym
    simp only [predictPriceImpact]
    rw [mem_map_fst_iff _ _ (fun e => by
      by_cases hx : 0 < ((getStrongestCorrelations store cat 0.6).filter
          (fun c => c.crypto_symbol = e.1)).length <;> simp [hx])]
    rw [foldl_applyCorrelation_key s (getStrongestCorrelations store cat 0.6) sym []]
    simp

/-- C8 witness: a store holding only a 0.5-confidence pattern of the
category yields the empty mapping, and the key characterisation holds for
the symbol BTC. -/
theorem predictPriceImpact_spec_witness :
    predictPriceImpact [lowConfPat] "regulation" 1 "high" = [] ∧
    ((∃ e ∈ predictPriceImpact [lowConfPat] "regulation" 1 "high", e.1 = "BTC") ↔
      (∃ c ∈ getStrongestCorrelations [lowConfPat] "regulation" 0.6,
        c.crypto_symbol = "BTC")) := by
  refine ⟨(predictPriceImpact_spec [lowConfPat] "regulation" 1 "high").1 ?_,
    (predictPriceImpact_spec [lowConfPat] "regulation" 1 "high").2 "BTC"⟩
  intro c hc
  rw [List.mem_singleton.mp hc]
  norm_num [lowConfPat]

end CorrelationAnalyzer
